import Mathlib

/-!
Verification of the zangalewa error-detection / auto-fix pipeline.

Shallow embedding of the Python sources:
  * `src/zangalewa/core/errors/detector.py`     (ErrorDetector)
  * `src/zangalewa/core/errors/resolver.py`     (ErrorResolver.test_solution)
  * `src/zangalewa/core/errors/search.py`       (ErrorSearcher._score_and_rank_results)
  * `src/zangalewa/core/executor/command.py`    (CommandExecutor)
  * `src/zangalewa/core/errors/auto_resolver.py`(AutoErrorResolver)
  * `src/zangalewa/cli/commands/auto_fix_cmd.py`(AutoFixCommandHandler)

Strings are modelled by Lean `String`, Python floats by `ℚ` (all constants in
the scored code are small decimals and all comparisons in the proofs are far
from float rounding error), machine-level effects (subprocess execution, git
subprocess calls, the network) by explicit environment records that the
functions consume, exceptions by `Except String`.
-/

namespace Zangalewa

/-! ## String helpers (Python `in`, `str.split()`, `str.lower()` analogues) -/

/-- `subAt pat l` : does `pat` occur as a contiguous block starting at the head of `l`?
Mirrors matching a regex literal at one position. -/
def subAt (pat l : List Char) : Bool := pat.isPrefixOf l

/-- Python's `pat in hay` (substring containment) on char lists. -/
def containsSub : List Char → List Char → Bool
  | pat, [] => pat.isEmpty
  | pat, l@(_ :: rest) => subAt pat l || containsSub pat rest

/-- Python's `pat in hay` on strings. -/
def strContains (hay pat : String) : Bool := containsSub pat.data hay.data

/-- Scan `l` left to right; at each position where the literal `lit` matches,
test the continuation `k` on the rest.  This is regex `search` for a pattern
`LIT(TAIL)` whose tail is decided by `k`. -/
def searchLitThen (lit : List Char) (k : List Char → Bool) : List Char → Bool
  | [] => subAt lit [] && k []
  | l@(_ :: rest) => (subAt lit l && k (l.drop lit.length)) || searchLitThen lit k rest

/-- Like `searchLitThen`, but the scan (regex `.*`) may not cross a newline. -/
def searchInLineThen (lit : List Char) (k : List Char → Bool) : List Char → Bool
  | [] => subAt lit [] && k []
  | l@(c :: rest) =>
    (subAt lit l && k (l.drop lit.length)) || (decide (c ≠ '\n') && searchInLineThen lit k rest)

/-- First scan-result of `f` applied at successive positions (regex `search`
returning capture data): at each position where the literal matches and the
continuation extractor succeeds, return its value. -/
def searchLitExtract (lit : List Char) (f : List Char → Option (List String)) :
    List Char → Option (List String)
  | [] => if subAt lit [] then f [] else none
  | l@(_ :: rest) =>
    match (if subAt lit l then f (l.drop lit.length) else none) with
    | some g => some g
    | none => searchLitExtract lit f rest

/-- Python `str.split()` whitespace set (ASCII part: space, tab, newline,
carriage return, vertical tab, form feed). -/
def isPyWhitespace (c : Char) : Bool :=
  c = ' ' || c = '\t' || c = '\n' || c = '\r' || c = Char.ofNat 11 || c = Char.ofNat 12

/-- Tokenizer for Python `str.split()`: maximal runs of non-whitespace
characters (`cur` holds the current token, reversed). -/
def pySplitChars (cur : List Char) : List Char → List String
  | [] => if cur.isEmpty then [] else [cur.reverse.asString]
  | c :: rest =>
    if isPyWhitespace c then
      (if cur.isEmpty then [] else [cur.reverse.asString]) ++ pySplitChars [] rest
    else pySplitChars (c :: cur) rest

/-- Python `str.split()` with no argument: split on whitespace runs, no empty
tokens. -/
def pySplit (s : String) : List String := pySplitChars [] s.data

/-- Python `str.lower()` (character-wise; the strings compared in the source
are ASCII). -/
def pyLower (s : String) : String := (s.data.map Char.toLower).asString

/-- Python `" ".join`. -/
def joinSpaces (l : List String) : String := String.intercalate " " l

/-- All start indices at which the literal `lit` occurs in the list (scanning
from offset `i`). -/
def occIndices (lit : List Char) : List Char → Nat → List Nat
  | [], i => if lit.isEmpty then [i] else []
  | l@(_ :: rest), i => (if subAt lit l then [i] else []) ++ occIndices lit rest (i + 1)

/-! ## `ErrorDetector` (src/zangalewa/core/errors/detector.py)

Each `re.compile(...)` pattern of the detection table is translated to an
executable matcher over the error text, and — where the pattern's
`search_query` template references a capture group `{0}` — to a capture
extractor mirroring the regex's leftmost/greedy semantics.  `[^']` and `.`
follow Python `re`: `[^']` matches any character except a quote (newline
included), `.` matches any character except a newline. -/

/-- Continuation of `'?([^']+)'?` (used by the module-name patterns): an
optional quote, one or more non-quote characters (the capture), an optional
closing quote. -/
def quotedSpanOpt : List Char → Option (List String)
  | [] => none
  | '\'' :: t =>
    match t with
    | [] => none
    | d :: _ =>
      if d = '\'' then none else some [(t.takeWhile (fun c => c ≠ '\'')).asString]
  | l@(_ :: _) => some [(l.takeWhile (fun c => c ≠ '\'')).asString]

/-- Continuation of `(.+)`: one or more non-newline characters, captured
greedily to the end of the line. -/
def lineTail : List Char → Option (List String)
  | [] => none
  | c :: t =>
    if c = '\n' then none else some [((c :: t).takeWhile (fun x => x ≠ '\n')).asString]

/-- `ImportError: No module named '?([^']+)'?` — capture. -/
def grpImportError (text : String) : Option (List String) :=
  searchLitExtract "ImportError: No module named ".data quotedSpanOpt text.data

/-- `ModuleNotFoundError: No module named '?([^']+)'?` — capture. -/
def grpModuleNotFound (text : String) : Option (List String) :=
  searchLitExtract "ModuleNotFoundError: No module named ".data quotedSpanOpt text.data

/-- `SyntaxError: .*?\n.*?\n.*([\^]*)` — matches iff the text after some
occurrence of `SyntaxError: ` contains at least two newlines (`.*?` cannot
cross a newline, the final group may be empty). -/
def matchSyntaxError (text : String) : Bool :=
  searchLitThen "SyntaxError: ".data (fun s => decide (2 ≤ s.count '\n')) text.data

/-- `TypeError: (.+)` — capture. -/
def grpTypeError (text : String) : Option (List String) :=
  searchLitExtract "TypeError: ".data lineTail text.data

/-- `ValueError: (.+)` — capture. -/
def grpValueError (text : String) : Option (List String) :=
  searchLitExtract "ValueError: ".data lineTail text.data

/-- `AttributeError: .* has no attribute '(.+)'` applied to the line following
an occurrence of `AttributeError: `.  `.*` is greedy, so the rightmost
occurrence of ` has no attribute '` that still leaves a non-empty `(.+)`
before a final quote wins, and `(.+)` extends greedily to the last quote of
the line. -/
def attrGroupInLine (line : List Char) : Option (List String) :=
  match (occIndices ['\''] line 0).getLast? with
  | none => none
  | some lastQ =>
    let lit := " has no attribute '".data
    let viable := (occIndices lit line 0).filter (fun q => q + lit.length + 1 ≤ lastQ)
    match viable.getLast? with
    | none => none
    | some q =>
      some [((line.drop (q + lit.length)).take (lastQ - (q + lit.length))).asString]

/-- `AttributeError: .* has no attribute '(.+)'` — capture. -/
def grpAttributeError (text : String) : Option (List String) :=
  searchLitExtract "AttributeError: ".data
    (fun s => attrGroupInLine (s.takeWhile (fun c => c ≠ '\n'))) text.data

/-- `command not found: (.+)` — capture. -/
def grpCommandNotFound (text : String) : Option (List String) :=
  searchLitExtract "command not found: ".data lineTail text.data

/-- `fatal: unable to access '(.+)': (SSL certificate problem|Could not resolve host)` —
matcher only (its query template has no placeholder). -/
def matchGitConnection (text : String) : Bool :=
  searchLitThen "fatal: unable to access '".data
    (fun s =>
      let line := s.takeWhile (fun c => c ≠ '\n')
      containsSub "': SSL certificate problem".data (line.drop 1) ||
        containsSub "': Could not resolve host".data (line.drop 1)) text.data

/-- `error: failed to push some refs to '(.+)'` — matcher only. -/
def matchGitPush (text : String) : Bool :=
  searchLitThen "error: failed to push some refs to '".data
    (fun s => ((s.takeWhile (fun c => c ≠ '\n')).drop 1).contains '\'') text.data

/-- `Could not find a version that satisfies the requirement (.+)` — capture. -/
def grpPipPackage (text : String) : Option (List String) :=
  searchLitExtract "Could not find a version that satisfies the requirement ".data
    lineTail text.data

/-- `React Hook .+ is called conditionally` — matcher only. -/
def matchReactHook (text : String) : Bool :=
  searchLitThen "React Hook ".data
    (fun s => containsSub " is called conditionally".data
      ((s.takeWhile (fun c => c ≠ '\n')).drop 1)) text.data

/-- `Element type is invalid: expected a string.*but got: (undefined|null|object)` —
matcher only. -/
def matchReactInvalidElement (text : String) : Bool :=
  searchLitThen "Element type is invalid: expected a string".data
    (fun s =>
      let line := s.takeWhile (fun c => c ≠ '\n')
      containsSub "but got: undefined".data line || containsSub "but got: null".data line ||
        containsSub "but got: object".data line) text.data

/-- Continuation of `([^']+)' of (undefined|null)` after the opening quote. -/
def jsPropCont (s : List Char) : Option (List String) :=
  let content := s.takeWhile (fun c => c ≠ '\'')
  if content.isEmpty then none
  else
    let rest := s.drop content.length
    if subAt "' of undefined".data rest then some [content.asString, "undefined"]
    else if subAt "' of null".data rest then some [content.asString, "null"]
    else none

/-- `Cannot read propert(?:y|ies) '([^']+)' of (undefined|null)` — capture. -/
def grpJsUndefinedProperty (text : String) : Option (List String) :=
  go text.data
where
  go : List Char → Option (List String)
    | [] => none
    | l@(_ :: rest) =>
      let lit1 := "Cannot read property '".data
      let lit2 := "Cannot read properties '".data
      let attempt :=
        if subAt lit1 l then jsPropCont (l.drop lit1.length)
        else if subAt lit2 l then jsPropCont (l.drop lit2.length)
        else none
      match attempt with
      | some g => some g
      | none => go rest

/-- Continuation of `([^']+)'` after the opening quote. -/
def resolveCont (s : List Char) : Option (List String) :=
  let content := s.takeWhile (fun c => c ≠ '\'')
  if content.isEmpty then none
  else if subAt ['\''] (s.drop content.length) then some [content.asString] else none

/-- After `Failed to compile`, `.*Module not found: Error: Can't resolve '([^']+)'`:
`.*` stays on the line of the match start and is greedy (rightmost viable
occurrence of the literal), while `[^']+` may cross newlines. -/
def reactResolveInSuffix (s : List Char) : Option (List String) :=
  let lit := "Module not found: Error: Can't resolve '".data
  let lineLen := (s.takeWhile (fun c => c ≠ '\n')).length
  let viable := (occIndices lit s 0).filter (fun i => i ≤ lineLen)
  viable.reverse.findSome? (fun i => resolveCont (s.drop (i + lit.length)))

/-- `Failed to compile.*Module not found: Error: Can't resolve '([^']+)'` — capture. -/
def grpReactModuleNotFound (text : String) : Option (List String) :=
  searchLitExtract "Failed to compile".data reactResolveInSuffix text.data

/-- `detector.ErrorPattern`: one entry of the detection table.  `matches` is
the compiled regex's `search`-succeeds predicate; `groups` returns the capture
groups of the leftmost match for the patterns whose `search_query` template
references them (patterns whose template has no `{0}` placeholder are given
`fun _ => []`, as substitution ignores the groups there). -/
structure ErrorPattern where
  pattern : String → Bool
  groups : String → List String
  error_type : String
  description : String
  search_query : String
  user_friendly_explanation : String := ""
  common_causes : List String := []

/-- `detector.ErrorAnalysis` (the `solutions`/`sources` enrichment lists added
later by the resolver are not read by any property and are omitted). -/
structure ErrorAnalysis where
  error_text : String
  error_type : String
  description : String
  search_query : String
  user_friendly_explanation : String := ""
  common_causes : List String := []

/-- The `self.patterns` table of `ErrorDetector.__init__`, in declaration
order. -/
def errorPatterns : List ErrorPattern :=
  [ -- Python errors
    { pattern := fun t => (grpImportError t).isSome
      groups := fun t => (grpImportError t).getD []
      error_type := "python_import_error"
      description := "Python module import error"
      search_query := "python ImportError {0}"
      user_friendly_explanation := "A Python module is missing from your environment. This means Python tried to use a component that isn't installed."
      common_causes := ["The package is not installed in your current environment",
        "The package name is misspelled in your code",
        "You're using a virtual environment that doesn't have this package"] },
    { pattern := fun t => (grpModuleNotFound t).isSome
      groups := fun t => (grpModuleNotFound t).getD []
      error_type := "python_module_not_found"
      description := "Python module not found"
      search_query := "python ModuleNotFoundError {0}"
      user_friendly_explanation := "Python couldn't find a module you're trying to use. This typically means the module isn't installed in your environment."
      common_causes := ["The package is not installed in your current environment",
        "The package name is misspelled in your code",
        "You're using a different Python interpreter than expected"] },
    { pattern := matchSyntaxError
      groups := fun _ => []
      error_type := "python_syntax_error"
      description := "Python syntax error"
      search_query := "python SyntaxError"
      user_friendly_explanation := "There's an error in your Python code syntax - typically a typo, missing parenthesis, bracket, or incorrect indentation."
      common_causes := ["Missing or extra parentheses, brackets, or quotes",
        "Incorrect indentation",
        "Using Python 3 syntax in Python 2 or vice versa",
        "Forgetting colons after if/for/while statements"] },
    { pattern := fun t => (grpTypeError t).isSome
      groups := fun t => (grpTypeError t).getD []
      error_type := "python_type_error"
      description := "Python type error"
      search_query := "python TypeError {0}" },
    { pattern := fun t => (grpValueError t).isSome
      groups := fun t => (grpValueError t).getD []
      error_type := "python_value_error"
      description := "Python value error"
      search_query := "python ValueError {0}" },
    { pattern := fun t => (grpAttributeError t).isSome
      groups := fun t => (grpAttributeError t).getD []
      error_type := "python_attribute_error"
      description := "Python attribute error"
      search_query := "python AttributeError {0}" },
    -- Shell errors
    { pattern := fun t => (grpCommandNotFound t).isSome
      groups := fun t => (grpCommandNotFound t).getD []
      error_type := "shell_command_not_found"
      description := "Shell command not found"
      search_query := "command not found {0}" },
    { pattern := fun t => strContains t "No such file or directory"
      groups := fun _ => []
      error_type := "file_not_found"
      description := "File or directory not found"
      search_query := "no such file or directory"
      user_friendly_explanation := "The system can't find the file or directory you're trying to access. It either doesn't exist or is in a different location."
      common_causes := ["The path is incorrect",
        "The file/directory was moved or deleted",
        "You're in the wrong working directory",
        "Case sensitivity issues (especially on Linux/macOS)"] },
    { pattern := fun t => strContains t "Permission denied"
      groups := fun _ => []
      error_type := "permission_denied"
      description := "Permission denied for file or directory"
      search_query := "shell permission denied"
      user_friendly_explanation := "You don't have sufficient permissions to access or modify the file or directory."
      common_causes := ["File is owned by another user",
        "File permissions are restrictive",
        "Directory permissions prevent access",
        "Need to use sudo/admin privileges"] },
    -- Git errors
    { pattern := fun t => strContains t "fatal: not a git repository"
      groups := fun _ => []
      error_type := "git_not_a_repo"
      description := "Not a git repository"
      search_query := "git fatal not a repository" },
    { pattern := matchGitConnection
      groups := fun _ => []
      error_type := "git_connection_error"
      description := "Git connection or SSL error"
      search_query := "git connection error SSL certificate" },
    { pattern := matchGitPush
      groups := fun _ => []
      error_type := "git_push_error"
      description := "Git push error"
      search_query := "git failed to push refs" },
    -- Pip errors
    { pattern := fun t => (grpPipPackage t).isSome
      groups := fun t => (grpPipPackage t).getD []
      error_type := "pip_package_not_found"
      description := "Pip could not find the package"
      search_query := "pip could not find version requirement {0}" },
    -- General errors
    { pattern := fun t => strContains t "Timeout"
      groups := fun _ => []
      error_type := "timeout_error"
      description := "Operation timed out"
      search_query := "command timeout error" },
    { pattern := fun t => strContains t "MemoryError"
      groups := fun _ => []
      error_type := "memory_error"
      description := "Process ran out of memory"
      search_query := "process memory error" },
    { pattern := fun t => strContains t "Segmentation fault"
      groups := fun _ => []
      error_type := "segmentation_fault"
      description := "Segmentation fault (memory access violation)"
      search_query := "segmentation fault" },
    -- React errors
    { pattern := matchReactHook
      groups := fun _ => []
      error_type := "react_hook_conditional"
      description := "React Hook called conditionally"
      search_query := "react hook called conditionally error"
      user_friendly_explanation := "You're using a React Hook inside a conditional statement, but Hooks must be called at the top level of a component function."
      common_causes := ["Using a Hook (useState, useEffect, etc.) inside an if statement or loop",
        "Calling Hooks conditionally breaks React's Hook rules",
        "Hook call order must be consistent between renders"] },
    { pattern := matchReactInvalidElement
      groups := fun _ => []
      error_type := "react_invalid_element"
      description := "React invalid element type"
      search_query := "react invalid element type error"
      user_friendly_explanation := "React couldn't render your component because something that should be a valid React element is invalid."
      common_causes := ["A component you're importing doesn't exist or has a different name",
        "You forgot to export a component",
        "The component failed during rendering due to an error inside it",
        "You're using a named import when the component is a default export (or vice versa)"] },
    { pattern := fun t => (grpJsUndefinedProperty t).isSome
      groups := fun t => (grpJsUndefinedProperty t).getD []
      error_type := "js_undefined_property"
      description := "JavaScript undefined property access"
      search_query := "javascript cannot read property {0} of undefined"
      user_friendly_explanation := "Your code is trying to access a property of an object that doesn't exist (undefined or null)."
      common_causes := ["Data hasn't loaded yet (common in React with API calls)",
        "Typo in property or variable name",
        "Object structure changed but code wasn't updated",
        "Missing conditional check before accessing nested properties"] },
    { pattern := fun t => (grpReactModuleNotFound t).isSome
      groups := fun t => (grpReactModuleNotFound t).getD []
      error_type := "react_module_not_found"
      description := "React module resolution error"
      search_query := "react can't resolve module {0}"
      user_friendly_explanation := "The React build process can't find a module or file that your code is trying to import."
      common_causes := ["The package isn't installed (run npm install or yarn add)",
        "There's a typo in the import path",
        "You're using a relative path that's incorrect",
        "The file exists but is in a different location than expected"] },
    -- Installation errors
    { pattern := fun t => strContains t "npm ERR! code E404"
      groups := fun _ => []
      error_type := "npm_package_not_found"
      description := "NPM package not found"
      search_query := "npm package not found 404"
      user_friendly_explanation := "NPM couldn't find the package you're trying to install. The package name might be misspelled or it may not exist."
      common_causes := ["Package name is misspelled",
        "Package doesn't exist in the npm registry",
        "Package was deprecated or removed",
        "Using a private package without proper authentication"] },
    { pattern := fun t => strContains t "npm ERR! code ENOSELF"
      groups := fun _ => []
      error_type := "npm_invalid_self_operation"
      description := "NPM invalid self operation"
      search_query := "npm ENOSELF error"
      user_friendly_explanation := "You're trying to install a package as a dependency of itself, which isn't allowed."
      common_causes := ["Attempting to install a package inside its own directory",
        "Circular dependency configuration",
        "Incorrect working directory when running npm commands"] },
    { pattern := fun t => strContains t "npm ERR! code EPERM"
      groups := fun _ => []
      error_type := "npm_permission_error"
      description := "NPM permission error"
      search_query := "npm permission error EPERM"
      user_friendly_explanation := "NPM doesn't have sufficient permissions to complete the operation."
      common_causes := ["Trying to install packages globally without admin/sudo privileges",
        "File/directory permissions issue",
        "Another process has locked the file/directory",
        "Antivirus blocking file operations"] } ]

/-- `ErrorDetector.detect_error`: walk the pattern list in declaration order
and return the first pattern whose regex matches (the loop's locally computed
`search_query` is discarded by the source as well). -/
def detect_error (error_text : String) : Option ErrorPattern :=
  errorPatterns.find? (fun p => p.pattern error_text)

/-- The substitution loop of `ErrorDetector.analyze_error`: replace each
`{i}` in the query template by capture group `i`. -/
def substGroups (q : String) (gs : List String) : String :=
  gs.enum.foldl (fun acc p => acc.replace ("\x7b" ++ toString p.1 ++ "\x7d") p.2) q

/-- `ErrorDetector.analyze_error`. -/
def analyze_error (_command : String) (return_code : Int) (error_text : String) :
    ErrorAnalysis :=
  match detect_error error_text with
  | some p =>
    { error_text := error_text
      error_type := p.error_type
      description := p.description
      search_query := substGroups p.search_query (p.groups error_text)
      user_friendly_explanation := p.user_friendly_explanation
      common_causes := p.common_causes }
  | none =>
    { error_text := error_text
      error_type := "unknown_error"
      description := "Unknown error"
      search_query := "error " ++ toString return_code ++ " " ++
        joinSpaces ((pySplit error_text).take 10)
      user_friendly_explanation := "This appears to be an error I don't immediately recognize. Let me analyze it further and provide the best explanation I can."
      common_causes := ["The error might be specific to the tool or framework you're using",
        "It could be a newer error that's not in my pattern database",
        "The error might be caused by a combination of factors"] }

/-! ## `CommandExecutor` (src/zangalewa/core/executor/command.py)

Subprocess behaviour (exit code and output of `create_subprocess_shell`, a
timeout, or a runtime exception) and `shutil.which` are environment inputs. -/

/-- `CommandExecutor.BLOCKED_COMMANDS`. -/
def BLOCKED_COMMANDS : List String :=
  ["rm -rf /", "rm -rf /*", "mkfs", "dd if=/dev/zero",
   "> /dev/sda", "chmod -R 777 /", ":()\x7b:|:&\x7d;:"]

/-- Outcome of the spawned subprocess, decided by the environment. -/
inductive ProcOutcome where
  | completed (returncode : Int) (stdout stderr : String)
  | timedOut
  | raised (msg : String)

/-- Environment consumed by `CommandExecutor.execute`. -/
structure ExecEnv where
  which : String → Bool
  outcome : ProcOutcome

/-- `command.ExecutionResult` (the `resources`/`error_analysis` fields, float
resource telemetry, are omitted). -/
structure ExecutionResult where
  success : Bool
  command : String
  return_code : Int
  stdout : String
  stderr : String

/-- Python `str()` of a float with integral value, as used in the timeout
message (all timeouts appearing in statements are integral). -/
def floatStr (q : ℚ) : String :=
  if q.den = 1 then toString q.num ++ ".0" else toString q

/-- Python `str.startswith` for one plain prefix argument. -/
def startsWithStr (s p : String) : Bool := subAt p.data s.data

/-- `CommandExecutor._validate_command`: deny-list check on the lowercased
command, then the `/bin/`..`shutil.which` existence check; raises
`ValueError` (modelled by `.error`) when either rejects. -/
def validate_command (which : String → Bool) (command : String) : Except String Unit :=
  let command_lower := pyLower command
  match BLOCKED_COMMANDS.find? (fun b => strContains command_lower b) with
  | some b => .error ("The command contains a potentially dangerous pattern: " ++ b)
  | none =>
    if (startsWithStr command "/bin/" || startsWithStr command "/usr/bin/") &&
        !which ((pySplit command).headD "") then
      .error ("Command not found: " ++ (pySplit command).headD "")
    else .ok ()

/-- `CommandExecutor.execute`.  Returns the Python result or the propagated
exception, paired with whether `asyncio.create_subprocess_shell` was reached
(it is reached exactly when validation passes). -/
def execute (env : ExecEnv) (command : String) (timeout : ℚ) :
    Except String ExecutionResult × Bool :=
  match validate_command env.which command with
  | .error e => (.error e, false)
  | .ok _ =>
    match env.outcome with
    | .completed rc out err =>
      (.ok { success := rc == 0, command := command, return_code := rc,
             stdout := out, stderr := err }, true)
    | .timedOut =>
      (.ok { success := false, command := command, return_code := -1, stdout := "",
             stderr := "Command timed out after " ++ floatStr timeout ++ " seconds" }, true)
    | .raised m =>
      (.ok { success := false, command := command, return_code := -1, stdout := "",
             stderr := "Error executing command: " ++ m }, true)

/-! ## `ErrorResolver.test_solution` (src/zangalewa/core/errors/resolver.py) -/

/-- The literal deny-list inside `test_solution` (checked on the raw command,
not lowercased). -/
def DANGEROUS_SUBSTRINGS : List String :=
  ["rm -rf", "mkfs", "dd if=/dev/zero", "> /dev/sda", "chmod -R 777 /"]

/-- Continuation of regex `\x7b[^\x7d]+\x7d` after the opening brace: at
least one non-`\x7d` character, then a closing brace. -/
def braceSpanAt : List Char → Bool
  | [] => false
  | c :: rest => decide (c ≠ '}') && rest.contains '}'

/-- `re.search(r"\x7b[^\x7d]+\x7d", command)` succeeds: the command still
contains an unfilled `{variable}` placeholder. -/
def hasUnfilledPlaceholder (s : String) : Bool :=
  go s.data
where
  go : List Char → Bool
    | [] => false
    | c :: rest => (decide (c = '{') && braceSpanAt rest) || go rest

/-- The dictionary returned by `test_solution`. -/
structure TestSolutionResult where
  tested : Bool
  success : Bool
  reason : Option String := none
  return_code : Option Int := none
  stdout : Option String := none
  stderr : Option String := none

/-- `ErrorResolver.test_solution`.  `hasExecutor` models
`self.command_executor` being set, `solutionCommand` the optional
`solution["command"]` entry.  The second component records the command passed
to `CommandExecutor.execute`, if that call was made at all. -/
def test_solution (hasExecutor : Bool) (solutionCommand : Option String)
    (env : ExecEnv) : TestSolutionResult × Option String :=
  match hasExecutor, solutionCommand with
  | false, _ =>
    ({ tested := false, success := false,
       reason := some "No command executor or no command in solution" }, none)
  | true, none =>
    ({ tested := false, success := false,
       reason := some "No command executor or no command in solution" }, none)
  | true, some command =>
    if DANGEROUS_SUBSTRINGS.any (fun d => strContains command d) then
      ({ tested := false, success := false,
         reason := some "Command looks potentially dangerous" }, none)
    else if hasUnfilledPlaceholder command then
      ({ tested := false, success := false,
         reason := some "Command contains unfilled variables" }, none)
    else
      match execute env command 60 with
      | (.ok r, _) =>
        ({ tested := true, success := r.success, return_code := some r.return_code,
           stdout := some r.stdout, stderr := some r.stderr }, some command)
      | (.error e, _) =>
        ({ tested := true, success := false,
           reason := some ("Error testing solution: " ++ e) }, some command)

/-! ## `ErrorSearcher._score_and_rank_results` (src/zangalewa/core/errors/search.py) -/

/-- `search.SearchResultMetrics` with `ℚ` in place of Python floats. -/
structure SearchResultMetrics where
  relevance_score : ℚ := 0
  authority_score : ℚ := 0
  recency_score : ℚ := 0
  community_score : ℚ := 0
  completeness_score : ℚ := 0
  composite_score : ℚ := 0
deriving DecidableEq

/-- One search-result dictionary, restricted to the keys the ranking pass
reads: `title`, `snippet`, `is_answered` (`result.get("is_answered", False)`)
and the optional `metrics`. -/
structure SearchResult where
  title : String := ""
  snippet : String := ""
  is_answered : Bool := false
  metrics : Option SearchResultMetrics := none
deriving DecidableEq

/-- The default metrics filled in by the first loop of
`_score_and_rank_results`. -/
def defaultMetrics : SearchResultMetrics := ⟨5, 5, 5, 5, 5, 5⟩

/-- First loop: ensure every result carries metrics. -/
def ensureMetrics (r : SearchResult) : SearchResult :=
  match r.metrics with
  | some _ => r
  | none => { r with metrics := some defaultMetrics }

/-- Composite score read off a result (after `ensureMetrics` the metrics are
always present; `getD` only discharges the `Option`). -/
def compositeOf (r : SearchResult) : ℚ :=
  (r.metrics.getD defaultMetrics).composite_score

/-- Second loop of `_score_and_rank_results`: the content-aware adjustments
(+2 completeness for a code block, +1 relevance for "solution"/"fixed",
−2 composite for an unanswered question) followed by the recomputation of the
composite score from the five axes. -/
def adjustResult (r : SearchResult) : SearchResult :=
  let m := r.metrics.getD defaultMetrics
  let m :=
    if strContains r.snippet "<code>" || strContains r.snippet "```" then
      { m with completeness_score := m.completeness_score + 2 }
    else m
  let m :=
    if strContains (pyLower r.snippet) "solution" || strContains (pyLower r.snippet) "fixed" then
      { m with relevance_score := m.relevance_score + 1 }
    else m
  let m :=
    if strContains r.title "?" && !r.is_answered then
      { m with composite_score := m.composite_score - 2 }
    else m
  let m :=
    { m with composite_score :=
        -- weights 0.3, 0.25, 0.15, 0.2, 0.1 as exact rationals
        m.relevance_score * (3 / 10) + m.authority_score * (1 / 4) +
          m.recency_score * (3 / 20) + m.community_score * (1 / 5) +
          m.completeness_score * (1 / 10) }
  { r with metrics := some m }

/-- The comparison of `sorted(results, key=..., reverse=True)`: `a` may come
before `b` iff `a`'s composite score is at least `b`'s (so equal scores keep
their original order — Python's sort is stable). -/
def rankedBefore (a b : SearchResult) : Prop := compositeOf b ≤ compositeOf a

instance : DecidableRel rankedBefore := fun a b =>
  inferInstanceAs (Decidable (compositeOf b ≤ compositeOf a))

/-- `ErrorSearcher._score_and_rank_results`: ensure metrics, apply the
adjustment pass, then Python's `sorted(..., key=composite, reverse=True)`.
Python's `sorted` is a stable sort; any two stable sorts agree, so it is
modelled by Mathlib's stable `insertionSort`. -/
def score_and_rank_results (results : List SearchResult) : List SearchResult :=
  let results := results.map ensureMetrics
  let results := results.map adjustResult
  results.insertionSort rankedBefore

/-! ## `AutoErrorResolver` (src/zangalewa/core/errors/auto_resolver.py)

The working tree is a finite map from paths to file contents; git stores one
committed snapshot (tip) per branch.  The git subprocess calls of the source
(`git checkout -b`, `git add`/`git commit`, `git merge`, `git checkout main`,
`git branch -D`, all run with `check=True`) are modelled on this state; their
exit status is an environment input (`GitEnv`), and a non-zero status raises
`CalledProcessError` (modelled by `.error`).  Crucially, `git checkout`
carries uncommitted working-tree modifications over to the target branch
(paths whose content differs from the current tip keep their content), and
`git branch -D` only deletes the branch ref — neither touches modified
files. -/

/-- A working tree / committed snapshot: path → file content. -/
def Tree := String → Option String

/-- Git repository state: current branch, tip snapshot of each branch, and
the working tree. -/
structure GitRepo where
  currentBranch : String
  tips : String → Option Tree
  worktree : Tree

/-- Success/failure of the git subprocess calls, plus the hash `git rev-parse
HEAD` reports after a successful commit. -/
structure GitEnv where
  commitOk : Bool := true
  commitHash : String := ""
  checkoutMainOk : Bool := true
  deleteBranchOk : Bool := true
  mergeOk : Bool := true

/-- Tip snapshot of a branch (empty tree if the branch does not exist). -/
def tipOf (r : GitRepo) (b : String) : Tree :=
  (r.tips b).getD (fun _ => none)

/-- `git checkout target`: switch branches; paths locally modified relative
to the current tip keep their working-tree content, all others take the
target tip's content. -/
def checkoutCarry (r : GitRepo) (target : String) : GitRepo :=
  let head := tipOf r r.currentBranch
  let tgt := tipOf r target
  { r with currentBranch := target,
           worktree := fun p => if r.worktree p = head p then tgt p else r.worktree p }

/-- `AutoErrorResolver._create_branch` (`git checkout -b name`): new branch
at the current tip, switch to it; the working tree is untouched. -/
def create_branch (name : String) (r : GitRepo) : GitRepo :=
  { r with
    tips := fun b => if b = name then some (tipOf r r.currentBranch) else r.tips b,
    currentBranch := name }

/-- `AutoErrorResolver._commit_changes`: `git add` each file and commit; on
success the current branch's tip takes the working-tree content of exactly
the listed files and `git rev-parse HEAD` yields the new hash; a failing git
call raises `CalledProcessError`. -/
def commit_changes (env : GitEnv) (_message : String) (files : List String)
    (r : GitRepo) : Except String (String × GitRepo) :=
  if env.commitOk then
    let head := tipOf r r.currentBranch
    let newTip : Tree := fun p => if files.contains p then r.worktree p else head p
    .ok (env.commitHash,
      { r with tips := fun b => if b = r.currentBranch then some newTip else r.tips b })
  else .error "Command 'git commit' returned non-zero exit status 1."

/-- `AutoErrorResolver._merge_branch`: if the current branch is an
`error-fix-` branch check out `main` first, merge the fix branch into the
current branch (fast-forwarding its tip), then `git branch -d` it. -/
def merge_branch (env : GitEnv) (name : String) (r : GitRepo) : Except String GitRepo :=
  let r := if startsWithStr r.currentBranch "error-fix-" then checkoutCarry r "main" else r
  if env.mergeOk then
    let merged := tipOf r name
    let head := tipOf r r.currentBranch
    let r :=
      { r with
        tips := fun b => if b = r.currentBranch then some merged else r.tips b,
        worktree := fun p => if r.worktree p = head p then merged p else r.worktree p }
    if env.deleteBranchOk then
      .ok { r with tips := fun b => if b = name then none else r.tips b }
    else .error "Command 'git branch -d' returned non-zero exit status 1."
  else .error "Command 'git merge' returned non-zero exit status 1."

/-- `AutoErrorResolver._abandon_branch`: if still on the fix branch check out
`main`, then force-delete the fix branch.  No `git reset`/`checkout -f` is
issued, so the working tree itself is never restored here. -/
def abandon_branch (env : GitEnv) (name : String) (r : GitRepo) : Except String GitRepo :=
  let step : Except String GitRepo :=
    if r.currentBranch = name then
      if env.checkoutMainOk then .ok (checkoutCarry r "main")
      else .error "Command 'git checkout main' returned non-zero exit status 1."
    else .ok r
  match step with
  | .error e => .error e
  | .ok r' =>
    if env.deleteBranchOk then
      .ok { r' with tips := fun b => if b = name then none else r'.tips b }
    else .error "Command 'git branch -D' returned non-zero exit status 1."

/-- `auto_resolver.ErrorFixResult` (`code_changes : Dict[str, str]` is a list
of pairs, defaulting to empty for the `None` default). -/
structure ErrorFixResult where
  success : Bool
  fix_description : String
  modified_files : List String
  commit_hash : Option String := none
  error_type : String := ""
  action_taken : String := ""
  original_error : String := ""
  fix_command : Option String := none
  code_changes : List (String × String) := []

/-- `AutoErrorResolver.AUTOFIXABLE_ERRORS`. -/
def AUTOFIXABLE_ERRORS : List (String × String) :=
  [("python_import_error", "install_dependency"),
   ("python_module_not_found", "install_dependency"),
   ("npm_package_not_found", "install_dependency"),
   ("react_module_not_found", "install_dependency"),
   ("file_not_found", "create_missing_file_or_dir"),
   ("permission_denied", "fix_permissions"),
   ("react_hook_conditional", "fix_react_hook"),
   ("js_undefined_property", "add_null_check"),
   ("python_syntax_error", "fix_syntax"),
   ("git_not_a_repo", "init_git_repo")]

/-- Outcome of one dispatched `_fix_<strategy>` coroutine: a returned
`ErrorFixResult` or a raised exception, together with the working tree it
leaves behind (the handlers run shell commands and write files). -/
inductive MethodOutcome where
  | ok (r : ErrorFixResult) (t : Tree)
  | raised (msg : String) (t : Tree)

/-- `re.search(r"'([^']+)(@[^']+)?' is not in the npm registry", text)`,
group 1: the greedy `[^']+` span runs to the first quote, which must be
followed by the registry literal (the optional `@` group then matches
empty). -/
def extractNpmRegistryPkg (text : String) : Option String :=
  go text.data
where
  go : List Char → Option String
    | [] => none
    | c :: rest =>
      match
        (if c = '\'' then
          let content := rest.takeWhile (fun x => x ≠ '\'')
          if !content.isEmpty &&
              subAt "' is not in the npm registry".data (rest.drop content.length) then
            some content.asString
          else none
        else none) with
      | some g => some g
      | none => go rest

/-- `re.search(r"Error: Can't resolve '([^']+)'", text)`, group 1. -/
def extractResolvePkg (text : String) : Option String :=
  (searchLitExtract "Error: Can't resolve '".data resolveCont text.data).bind List.head?

/-- `re.search(r"No module named '?([^']+)'?", text)`, group 1. -/
def extractModuleName (text : String) : Option String :=
  (searchLitExtract "No module named ".data quotedSpanOpt text.data).bind List.head?

/-- `AutoErrorResolver._fix_install_dependency`.  `exec` is the Shell Command
Runner as seen by the handler: success flag of `CommandExecutor.execute` plus
its effect on the working tree (for `npm install` that effect may touch
`package.json`/`package-lock.json` even when the install fails — the runner
is a black-box collaborator). -/
def fix_install_dependency (exec : String → Tree → Bool × Tree)
    (_command : String) (ea : ErrorAnalysis) (t : Tree) : MethodOutcome :=
  let error_text := ea.error_text
  let fallThrough : Tree → MethodOutcome := fun t' =>
    .ok { success := false, fix_description := "Could not determine dependency to install",
          modified_files := [], error_type := ea.error_type, original_error := error_text,
          action_taken := "dependency_detection_failed" } t'
  if strContains ea.error_type "python_" then
    match extractModuleName error_text with
    | some package_name =>
      let pip_command := "pip install " ++ package_name
      let (ok, t') := exec pip_command t
      if ok then
        .ok { success := true,
              fix_description := "Installed missing Python package: " ++ package_name,
              modified_files := [], error_type := ea.error_type,
              original_error := error_text, action_taken := "installed_dependency",
              fix_command := some pip_command } t'
      else
        .ok { success := false,
              fix_description := "Failed to install Python package: " ++ package_name,
              modified_files := [], error_type := ea.error_type,
              original_error := error_text, action_taken := "dependency_install_failed",
              fix_command := some pip_command } t'
    | none => fallThrough t
  else if strContains ea.error_type "npm_" ||
      strContains ea.error_type "react_module_not_found" then
    let pkg? :=
      if strContains ea.error_type "npm_" then extractNpmRegistryPkg error_text
      else extractResolvePkg error_text
    match pkg? with
    | some package_name =>
      let npm_command := "npm install " ++ package_name
      let (ok, t') := exec npm_command t
      if ok then
        .ok { success := true,
              fix_description := "Installed missing NPM package: " ++ package_name,
              modified_files := ["package.json", "package-lock.json"],
              error_type := ea.error_type, original_error := error_text,
              action_taken := "installed_dependency", fix_command := some npm_command } t'
      else
        .ok { success := false,
              fix_description := "Failed to install NPM package: " ++ package_name,
              modified_files := [], error_type := ea.error_type,
              original_error := error_text, action_taken := "dependency_install_failed",
              fix_command := some npm_command } t'
    | none => fallThrough t
  else fallThrough t

/-- `ErrorResolver.analyze_error` as consumed by `handle_error`: the detector
classification.  The subsequent enrichment (common solutions, variable
filling, searches, LLM suggestions) only sets the `solutions`/`sources`
lists, never `error_type`/`error_text`, and each enrichment step catches its
own exceptions. -/
def resolver_analyze_error (command : String) (return_code : Int)
    (error_text : String) : ErrorAnalysis :=
  analyze_error command return_code error_text

/-- The `except Exception as e` handler of `handle_error`: abandon the fix
branch if git is enabled (a failure of that git call propagates — the
`except` block is not itself guarded), then return the failure result with
the exception message. -/
def handleErrorExcept (git_enabled : Bool) (env : GitEnv) (branch_name : String)
    (ea : ErrorAnalysis) (error_text msg : String) (repo : GitRepo) :
    Except String ErrorFixResult × GitRepo :=
  let result : ErrorFixResult :=
    { success := false, fix_description := "Failed to auto-fix error: " ++ msg,
      modified_files := [], error_type := ea.error_type, original_error := error_text,
      action_taken := "failed_fix_attempt" }
  if git_enabled then
    match abandon_branch env branch_name repo with
    | .ok repo' => (.ok result, repo')
    | .error e2 => (.error e2, repo)
  else (.ok result, repo)

/-- `AutoErrorResolver.handle_error`.  `now` is `int(time.time())`;
`fixMethod` is the dynamic dispatch `getattr(self, f"_fix_...")` — given the
strategy name it runs the handler coroutine on the current working tree.
The first component is the returned `ErrorFixResult`, or the uncaught
exception; the second the final git/tree state. -/
def handle_error (git_enabled : Bool) (now : Nat) (env : GitEnv)
    (fixMethod : String → String → ErrorAnalysis → Tree → MethodOutcome)
    (command : String) (return_code : Int) (error_text : String)
    (repo : GitRepo) : Except String ErrorFixResult × GitRepo :=
  let branch_name := "error-fix-" ++ toString now
  let repo := if git_enabled then create_branch branch_name repo else repo
  let error_analysis := resolver_analyze_error command return_code error_text
  match AUTOFIXABLE_ERRORS.lookup error_analysis.error_type with
  | some fix_method_name =>
    -- try:
    match fixMethod fix_method_name command error_analysis repo.worktree with
    | .raised msg t =>
      handleErrorExcept git_enabled env branch_name error_analysis error_text msg
        { repo with worktree := t }
    | .ok fix_result t =>
      let repo := { repo with worktree := t }
      if git_enabled && fix_result.success then
        match commit_changes env ("Auto-fix: " ++ fix_result.fix_description)
            fix_result.modified_files repo with
        | .ok (commit_hash, repo') =>
          match merge_branch env branch_name repo' with
          | .ok repo'' => (.ok { fix_result with commit_hash := some commit_hash }, repo'')
          | .error e =>
            handleErrorExcept git_enabled env branch_name error_analysis error_text e repo'
        | .error e =>
          handleErrorExcept git_enabled env branch_name error_analysis error_text e repo
      else if git_enabled then
        match abandon_branch env branch_name repo with
        | .ok repo' => (.ok fix_result, repo')
        | .error e =>
          handleErrorExcept git_enabled env branch_name error_analysis error_text e repo
      else (.ok fix_result, repo)
  | none =>
    -- not auto-fixable: the `_abandon_branch` call here is outside the try
    let result : ErrorFixResult :=
      { success := false,
        fix_description := "Cannot auto-fix error type: " ++ error_analysis.error_type,
        modified_files := [], error_type := error_analysis.error_type,
        original_error := error_text, action_taken := "error_not_auto_fixable" }
    if git_enabled then
      match abandon_branch env branch_name repo with
      | .ok repo' => (.ok result, repo')
      | .error e => (.error e, repo)
    else (.ok result, repo)

/-! ## `AutoFixCommandHandler.run_with_auto_fix`
(src/zangalewa/cli/commands/auto_fix_cmd.py)

`execRes n` is the `ExecutionResult` of the `n`-th call to
`CommandExecutor.execute`.  The handler passes `error_text=result.error` to
`handle_error` — but `ExecutionResult` (the dataclass of
`core/executor/command.py`, whose fields are `success`, `command`,
`return_code`, `stdout`, `stderr`, `resources`, `error_analysis`) has no
attribute `error`, so evaluating that keyword argument raises
`AttributeError` before `handle_error` is ever invoked; the same attribute
access sits in the final `display_quick_error` call.  The second returned
component counts the `handle_error` invocations actually made. -/
def executionResultNoErrorAttr : String :=
  "AttributeError: 'ExecutionResult' object has no attribute 'error'"

/-- `AutoFixCommandHandler.run_with_auto_fix`. -/
def run_with_auto_fix (execRes : Nat → ExecutionResult) (_command : String)
    (max_fix_attempts : Nat) : Except String Bool × Nat :=
  let result := execRes 0
  if result.success then (.ok true, 0)
  else
    if 0 < max_fix_attempts then
      -- first loop iteration: `fix_attempts = 1`, then the argument
      -- `error_text=result.error` of the `handle_error` call raises
      (.error executionResultNoErrorAttr, 0)
    else
      -- loop body never entered; the closing
      -- `display_quick_error(error_text=result.error, ...)` raises
      (.error executionResultNoErrorAttr, 0)

/-! ## Theorems -/

/-- A concrete environment for witnesses: every utility exists, the
subprocess completes successfully. -/
def benignExecEnv : ExecEnv := ⟨fun _ => true, .completed 0 "" ""⟩

/-- **C2.**  For every solution whose command string still contains an
unfilled `{variable}` placeholder (the quantification over all such command
strings covers in particular every output of
`ErrorResolver._fill_solution_variables`, which only replaces placeholders by
extracted text), `test_solution` never invokes `CommandExecutor.execute` with
that command — the recorded executed command is `none` — and the returned
dictionary has `tested = False` and `success = False`. -/
theorem testSolution_never_executes_unfilled (hasExecutor : Bool)
    (command : String) (env : ExecEnv)
    (h : hasUnfilledPlaceholder command = true) :
    (test_solution hasExecutor (some command) env).2 = none ∧
    (test_solution hasExecutor (some command) env).1.tested = false ∧
    (test_solution hasExecutor (some command) env).1.success = false := by
  cases hasExecutor with
  | false => exact ⟨rfl, rfl, rfl⟩
  | true =>
    unfold test_solution
    by_cases hd : (DANGEROUS_SUBSTRINGS.any (fun d => strContains command d)) = true
    · simp [hd]
    · simp [hd, h]

/-- Witness for C2 at the `permission_denied` template
`sudo {original_command}` left unresolved. -/
theorem testSolution_never_executes_unfilled_witness :
    hasUnfilledPlaceholder "sudo {original_command}" = true ∧
    ((test_solution true (some "sudo {original_command}") benignExecEnv).2 = none ∧
      (test_solution true (some "sudo {original_command}") benignExecEnv).1.tested = false ∧
      (test_solution true (some "sudo {original_command}") benignExecEnv).1.success = false) :=
  ⟨by decide,
    testSolution_never_executes_unfilled true "sudo {original_command}" benignExecEnv
      (by decide)⟩

/-- Helper: `find?` returns the element at index `i` when it satisfies the
predicate and no earlier element does. -/
theorem find?_eq_get_of_first {α : Type} :
    ∀ (l : List α) (p : α → Bool) (i : Nat) (h : i < l.length),
      p (l.get ⟨i, h⟩) = true →
      (∀ j (hj : j < i), p (l.get ⟨j, Nat.lt_trans hj h⟩) = false) →
      l.find? p = some (l.get ⟨i, h⟩) := by
  intro l
  induction l with
  | nil => intro p i h; exact absurd h (Nat.not_lt_zero i)
  | cons a l ih =>
    intro p i h hp hprev
    cases i with
    | zero =>
      have hp' : p a = true := hp
      simp [List.find?_cons, hp']
    | succ n =>
      have ha : p a = false := hprev 0 (Nat.succ_pos n)
      have := ih p n (Nat.lt_of_succ_lt_succ h) hp
        (fun j hj => hprev (j + 1) (Nat.succ_lt_succ hj))
      simpa [List.find?_cons, ha] using this

/-- **C3.**  First-match-wins: if the error text matches detection rule `i`
and no rule `j < i` of the declared pattern list matches, `detect_error`
returns exactly rule `i` (the `find?` traversal stops there, so later rules
are not consulted) and `analyze_error` classifies with rule `i`'s
`error_type`. -/
theorem detect_error_first_match_wins (command : String) (return_code : Int)
    (error_text : String) (i : Nat) (h : i < errorPatterns.length)
    (hmatch : (errorPatterns.get ⟨i, h⟩).pattern error_text = true)
    (hbefore : ∀ j (hj : j < i),
      (errorPatterns.get ⟨j, Nat.lt_trans hj h⟩).pattern error_text = false) :
    detect_error error_text = some (errorPatterns.get ⟨i, h⟩) ∧
    (analyze_error command return_code error_text).error_type =
      (errorPatterns.get ⟨i, h⟩).error_type := by
  have hfind : detect_error error_text = some (errorPatterns.get ⟨i, h⟩) :=
    find?_eq_get_of_first errorPatterns (fun p => p.pattern error_text) i h hmatch hbefore
  refine ⟨hfind, ?_⟩
  unfold analyze_error
  rw [hfind]

/-- Witness for C3: `fatal: not a git repository` matches rule 9
(`git_not_a_repo`) and none of rules 0–8. -/
theorem detect_error_first_match_wins_witness :
    (errorPatterns.get ⟨9, by decide⟩).pattern "fatal: not a git repository" = true ∧
    detect_error "fatal: not a git repository" =
      some (errorPatterns.get ⟨9, by decide⟩) ∧
    (analyze_error "git status" 128 "fatal: not a git repository").error_type =
      "git_not_a_repo" := by
  have h := detect_error_first_match_wins "git status" 128 "fatal: not a git repository"
    9 (by decide) (by decide) (by decide)
  exact ⟨by decide, h.1, h.2⟩

/-- **C9.**  On an error text matching no detection rule, `analyze_error`
returns — it is a total function, so classification cannot raise — the
`unknown_error` record, whose search query is the string `"error "`,
followed by the return code, a space, and the first ten
whitespace-separated tokens of the error text joined by single spaces. -/
theorem analyze_error_unknown (command : String) (return_code : Int)
    (error_text : String) (h : (detect_error error_text).isNone = true) :
    analyze_error command return_code error_text =
      { error_text := error_text
        error_type := "unknown_error"
        description := "Unknown error"
        search_query := "error " ++ toString return_code ++ " " ++
          joinSpaces ((pySplit error_text).take 10)
        user_friendly_explanation := "This appears to be an error I don't immediately recognize. Let me analyze it further and provide the best explanation I can."
        common_causes := ["The error might be specific to the tool or framework you're using",
          "It could be a newer error that's not in my pattern database",
          "The error might be caused by a combination of factors"] } := by
  have h' : detect_error error_text = none := Option.isNone_iff_eq_none.mp h
  unfold analyze_error
  rw [h']

/-- Witness for C9: an eleven-token unrecognized error text with return code
3; the query keeps the first ten tokens. -/
theorem analyze_error_unknown_witness :
    (detect_error "gremlins ate the build cache, try again later maybe twice more").isNone
        = true ∧
    (analyze_error "make"
        3 "gremlins ate the build cache, try again later maybe twice more").search_query =
      "error 3 gremlins ate the build cache, try again later maybe twice" := by
  have h := analyze_error_unknown "make" 3
    "gremlins ate the build cache, try again later maybe twice more" (by decide)
  refine ⟨by decide, ?_⟩
  rw [h]
  decide

/-- **C4.**  If the strategy handler dispatched by `handle_error` raises,
`handle_error` does not propagate the exception (the abandonment git calls
are assumed to succeed, as the claim presumes a functioning version-control
collaborator): it returns an `ErrorFixResult` with `success = False` whose
`fix_description` is `"Failed to auto-fix error: "` followed by the
exception message, and, when git is enabled, the fix branch has been
abandoned (its ref deleted, `main` checked out). -/
theorem handle_error_catches_handler_exception
    (git_enabled : Bool) (now : Nat) (env : GitEnv)
    (fixMethod : String → String → ErrorAnalysis → Tree → MethodOutcome)
    (command : String) (return_code : Int) (error_text : String)
    (repo : GitRepo) (strategy msg : String) (t' : Tree)
    (hstrat : AUTOFIXABLE_ERRORS.lookup
      (resolver_analyze_error command return_code error_text).error_type = some strategy)
    (hraise : fixMethod strategy command
      (resolver_analyze_error command return_code error_text) repo.worktree =
        .raised msg t')
    (hco : env.checkoutMainOk = true) (hdel : env.deleteBranchOk = true) :
    ∃ r repo',
      handle_error git_enabled now env fixMethod command return_code error_text repo =
        (.ok r, repo') ∧
      r.success = false ∧
      r.fix_description = "Failed to auto-fix error: " ++ msg ∧
      (git_enabled = true →
        repo'.tips ("error-fix-" ++ toString now) = none ∧
        repo'.currentBranch = "main") := by
  have hwt : (create_branch ("error-fix-" ++ toString now) repo).worktree =
      repo.worktree := rfl
  have hcb : (create_branch ("error-fix-" ++ toString now) repo).currentBranch =
      "error-fix-" ++ toString now := rfl
  cases git_enabled with
  | false =>
    simp only [handle_error, Bool.false_eq_true, if_false, hstrat, hraise, handleErrorExcept]
    exact ⟨_, _, rfl, rfl, rfl, fun h => by cases h⟩
  | true =>
    simp only [handle_error, if_true, hwt, hstrat, hraise, handleErrorExcept,
      abandon_branch, hcb, if_pos rfl, hco, hdel]
    refine ⟨_, _, rfl, rfl, rfl, fun _ => ⟨?_, rfl⟩⟩
    simp

/-- Witness for C4: a `git_not_a_repo` error (auto-fixable through
`init_git_repo`) whose handler raises `"boom"`, on a repository with a single
`main` branch. -/
theorem handle_error_catches_handler_exception_witness :
    AUTOFIXABLE_ERRORS.lookup
        (resolver_analyze_error "git status" 128 "fatal: not a git repository").error_type =
      some "init_git_repo" ∧
    (∃ r repo',
      handle_error true 0 {} (fun _ _ _ t => .raised "boom" t)
          "git status" 128 "fatal: not a git repository"
          ⟨"main", fun b => if b = "main" then some (fun _ => none) else none,
            fun _ => none⟩ =
        (.ok r, repo') ∧
      r.success = false ∧
      r.fix_description = "Failed to auto-fix error: boom" ∧
      (true = true →
        repo'.tips ("error-fix-" ++ toString 0) = none ∧
        repo'.currentBranch = "main")) :=
  ⟨by decide,
    handle_error_catches_handler_exception true 0 {} (fun _ _ _ t => .raised "boom" t)
      "git status" 128 "fatal: not a git repository"
      ⟨"main", fun b => if b = "main" then some (fun _ => none) else none, fun _ => none⟩
      "init_git_repo" "boom" (fun _ => none) (by decide) rfl rfl rfl⟩

/-- **C6** (code bug).  The deny-list entry `"chmod -R 777 /"` contains an
upper-case `R`, but `_validate_command` tests the deny-list against the
*lowercased* command, which never contains an upper-case letter.  Hence the
command `"chmod -R 777 /"` — which contains that deny-list pattern verbatim —
passes validation, `execute` raises no `ValueError`, and the subprocess is
created and run, contradicting the fail-closed claim. -/
theorem denylist_chmod_entry_never_blocks :
    BLOCKED_COMMANDS.contains "chmod -R 777 /" = true ∧
    strContains "chmod -R 777 /" "chmod -R 777 /" = true ∧
    validate_command (fun _ => true) "chmod -R 777 /" = .ok () ∧
    (execute benignExecEnv "chmod -R 777 /" 60).2 = true ∧
    (execute benignExecEnv "chmod -R 777 /" 60).1 =
      .ok { success := true, command := "chmod -R 777 /", return_code := 0,
            stdout := "", stderr := "" } := by
  exact ⟨by decide, by decide, rfl, rfl, rfl⟩

/-- The execution environments of the C5 scenario: a command that fails on
every run, and one that succeeds immediately. -/
def alwaysFailingExec : Nat → ExecutionResult :=
  fun _ => { success := false, command := "false", return_code := 1, stdout := "", stderr := "" }

def alwaysSucceedingExec : Nat → ExecutionResult :=
  fun _ => { success := true, command := "true", return_code := 0, stdout := "", stderr := "" }

/-- **C5** (code bug).  On a successful first run `run_with_auto_fix` does
return `True` immediately (first half of the claim).  But on a permanently
failing command with `maxAttempts = 3` it does *not* invoke `handle_error`
three times and return `False`: evaluating the keyword argument
`error_text=result.error` of the very first `handle_error` call raises
`AttributeError` (the `ExecutionResult` dataclass has no field `error`), so
the fixer is invoked zero times and no boolean is ever returned. -/
theorem run_with_auto_fix_raises_attribute_error :
    run_with_auto_fix alwaysSucceedingExec "true" 3 = (.ok true, 0) ∧
    run_with_auto_fix alwaysFailingExec "false" 3 =
      (.error executionResultNoErrorAttr, 0) := by
  exact ⟨rfl, rfl⟩

/-- The C8 scenario: an unanswered question-titled result with default
metrics and a plain snippet, and its answered twin. -/
def unansweredQuestion : SearchResult :=
  { title := "How do I resolve this build failure?", snippet := "plain text",
    is_answered := false, metrics := some defaultMetrics }

def answeredTwin : SearchResult :=
  { unansweredQuestion with is_answered := true }

/-- **C8** (code bug).  The `−2` unanswered-question adjustment is applied to
`composite_score`, but the very next statement recomputes `composite_score`
from the five axes, overwriting it; the penalty therefore does *not* survive
into the score used for the final sort.  At the failing input the adjusted
composite equals the recomputed weighted sum `5` — exactly the value of the
answered twin — instead of being `2` lower. -/
theorem unanswered_penalty_is_overwritten :
    (strContains unansweredQuestion.title "?" && !unansweredQuestion.is_answered) = true ∧
    compositeOf (adjustResult unansweredQuestion) = 5 ∧
    compositeOf (adjustResult answeredTwin) = 5 := by
  have hc : (strContains "plain text" "<code>" || strContains "plain text" "```") = false := by
    decide
  have hs : (strContains (pyLower "plain text") "solution" ||
      strContains (pyLower "plain text") "fixed") = false := by decide
  have hq : (strContains "How do I resolve this build failure?" "?" && !false) = true := by
    decide
  have hq' : (strContains "How do I resolve this build failure?" "?" && !true) = false := by
    decide
  refine ⟨by decide, ?_, ?_⟩
  · simp only [compositeOf, adjustResult, unansweredQuestion, Option.getD_some, hc, hs, hq,
      defaultMetrics, Bool.false_eq_true, if_false, if_true]
    norm_num
  · simp only [compositeOf, adjustResult, answeredTwin, unansweredQuestion, Option.getD_some,
      hc, hs, hq', defaultMetrics, Bool.false_eq_true, if_false, if_true]
    norm_num

/-! The C1 scenario, following the spec's own npm-E404 example: the command
`npm install badpkg` fails with an E404 error, the classifier yields
`npm_package_not_found`, the `install_dependency` strategy re-runs
`npm install badpkg`, which fails after partially rewriting
`package-lock.json` (the Shell Command Runner is a black box and `npm`
writes its lockfile before resolving), so the attempt ends in `Abandoned`. -/

def npmFailErrorText : String :=
  "npm ERR! code E404\nnpm ERR! 404 'badpkg' is not in the npm registry"

/-- Pre-attempt working tree: one committed lockfile. -/
def lockfileTree : Tree :=
  fun p => if p = "package-lock.json" then some "original lockfile" else none

/-- Pre-attempt repository: `main` checked out, tree clean. -/
def lockfileRepo : GitRepo :=
  ⟨"main", fun b => if b = "main" then some lockfileTree else none, lockfileTree⟩

/-- Runner behaviour: `npm install badpkg` exits non-zero after rewriting the
lockfile; nothing else succeeds or writes. -/
def failingNpmExec : String → Tree → Bool × Tree := fun c t =>
  if c = "npm install badpkg" then
    (false, fun p => if p = "package-lock.json" then some "partially written lockfile" else t p)
  else (false, t)

/-- The dynamic dispatch for this trace: the only strategy consulted is
`install_dependency`, embodied by `fix_install_dependency`. -/
def installDependencyDispatch : String → String → ErrorAnalysis → Tree → MethodOutcome :=
  fun _ cmd ea t => fix_install_dependency failingNpmExec cmd ea t

/-- **C1** (code bug).  A fix attempt that ends in `Abandoned` does *not*
restore the pre-attempt snapshot: `_abandon_branch` only checks out `main`
(which carries uncommitted modifications over) and force-deletes the branch
ref — it never issues `git reset --hard`/`git checkout -f`.  In this trace,
after `handle_error` returns the failure result and the fix branch is gone,
`package-lock.json` still holds the content written during the failed
attempt, not the snapshot content. -/
theorem abandoned_attempt_leaves_worktree_changed :
    (resolver_analyze_error "npm install badpkg" 1 npmFailErrorText).error_type =
      "npm_package_not_found" ∧
    (handle_error true 1700000000 {} installDependencyDispatch "npm install badpkg" 1
        npmFailErrorText lockfileRepo).1 =
      .ok { success := false,
            fix_description := "Failed to install NPM package: badpkg",
            modified_files := [], error_type := "npm_package_not_found",
            original_error := npmFailErrorText,
            action_taken := "dependency_install_failed",
            fix_command := some "npm install badpkg" } ∧
    (handle_error true 1700000000 {} installDependencyDispatch "npm install badpkg" 1
        npmFailErrorText lockfileRepo).2.currentBranch = "main" ∧
    (handle_error true 1700000000 {} installDependencyDispatch "npm install badpkg" 1
        npmFailErrorText lockfileRepo).2.tips "error-fix-1700000000" = none ∧
    lockfileRepo.worktree "package-lock.json" = some "original lockfile" ∧
    (handle_error true 1700000000 {} installDependencyDispatch "npm install badpkg" 1
        npmFailErrorText lockfileRepo).2.worktree "package-lock.json" =
      some "partially written lockfile" := by
  exact ⟨rfl, rfl, rfl, rfl, rfl, rfl⟩

/-! The C7 candidates: `rankCandidateA` outranks `rankCandidateB` after one
pass (5.3 vs 5.2), but a second pass re-applies the +2 code-fence
completeness bonus to B (5.3 vs 5.4) and the order flips. -/

def rankCandidateA : SearchResult :=
  { title := "alpha", snippet := "plain words", metrics := some ⟨6, 5, 5, 5, 5, 0⟩ }

def rankCandidateB : SearchResult :=
  { title := "beta", snippet := "has a ``` code fence", metrics := some ⟨5, 5, 5, 5, 5, 0⟩ }

/-- One adjustment pass on candidate A: no content bonus applies; the
composite becomes `6·0.3 + 5·0.25 + 5·0.15 + 5·0.2 + 5·0.1 = 5.3`. -/
theorem adjust_rankCandidateA_eq :
    adjustResult (ensureMetrics rankCandidateA) =
      { title := "alpha", snippet := "plain words", is_answered := false,
        metrics := some ⟨6, 5, 5, 5, 5, 53/10⟩ } := by
  have hc : (strContains "plain words" "<code>" || strContains "plain words" "```") = false := by
    decide
  have hs : (strContains (pyLower "plain words") "solution" ||
      strContains (pyLower "plain words") "fixed") = false := by decide
  have hq : (strContains "alpha" "?" && !false) = false := by decide
  simp only [ensureMetrics, rankCandidateA, adjustResult, Option.getD_some, hc, hs, hq,
    Bool.false_eq_true, if_false]
  norm_num [SearchResult.mk.injEq, SearchResultMetrics.mk.injEq]

/-- One adjustment pass on candidate B: the code-fence bonus raises
completeness to 7; the composite becomes 5.2. -/
theorem adjust_rankCandidateB_eq :
    adjustResult (ensureMetrics rankCandidateB) =
      { title := "beta", snippet := "has a ``` code fence", is_answered := false,
        metrics := some ⟨5, 5, 5, 5, 7, 26/5⟩ } := by
  have hc : (strContains "has a ``` code fence" "<code>" ||
      strContains "has a ``` code fence" "```") = true := by decide
  have hs : (strContains (pyLower "has a ``` code fence") "solution" ||
      strContains (pyLower "has a ``` code fence") "fixed") = false := by decide
  have hq : (strContains "beta" "?" && !false) = false := by decide
  simp only [ensureMetrics, rankCandidateB, adjustResult, Option.getD_some, hc, hs, hq,
    Bool.false_eq_true, if_false, if_true]
  norm_num [SearchResult.mk.injEq, SearchResultMetrics.mk.injEq]

/-- A second adjustment pass leaves (already adjusted) candidate A
unchanged. -/
theorem adjust_rankCandidateA_twice_eq :
    adjustResult (ensureMetrics
      ({ title := "alpha", snippet := "plain words", is_answered := false,
         metrics := some ⟨6, 5, 5, 5, 5, 53/10⟩ } : SearchResult)) =
      { title := "alpha", snippet := "plain words", is_answered := false,
        metrics := some ⟨6, 5, 5, 5, 5, 53/10⟩ } := by
  have hc : (strContains "plain words" "<code>" || strContains "plain words" "```") = false := by
    decide
  have hs : (strContains (pyLower "plain words") "solution" ||
      strContains (pyLower "plain words") "fixed") = false := by decide
  have hq : (strContains "alpha" "?" && !false) = false := by decide
  simp only [ensureMetrics, adjustResult, Option.getD_some, hc, hs, hq,
    Bool.false_eq_true, if_false]
  norm_num [SearchResult.mk.injEq, SearchResultMetrics.mk.injEq]

/-- A second adjustment pass on (already adjusted) candidate B applies the
code-fence bonus again: completeness 9, composite 5.4. -/
theorem adjust_rankCandidateB_twice_eq :
    adjustResult (ensureMetrics
      ({ title := "beta", snippet := "has a ``` code fence", is_answered := false,
         metrics := some ⟨5, 5, 5, 5, 7, 26/5⟩ } : SearchResult)) =
      { title := "beta", snippet := "has a ``` code fence", is_answered := false,
        metrics := some ⟨5, 5, 5, 5, 9, 27/5⟩ } := by
  have hc : (strContains "has a ``` code fence" "<code>" ||
      strContains "has a ``` code fence" "```") = true := by decide
  have hs : (strContains (pyLower "has a ``` code fence") "solution" ||
      strContains (pyLower "has a ``` code fence") "fixed") = false := by decide
  have hq : (strContains "beta" "?" && !false) = false := by decide
  simp only [ensureMetrics, adjustResult, Option.getD_some, hc, hs, hq,
    Bool.false_eq_true, if_false, if_true]
  norm_num [SearchResult.mk.injEq, SearchResultMetrics.mk.injEq]

/-- **C7 counterexample.**  The ranking pass is *not* idempotent: one pass on
`[A, B]` returns `[alpha, beta]`, but applying the pass again to its own
output (equivalently, running it twice over the same mutated result
dictionaries, since the Python pass mutates `result["metrics"]` in place)
returns `[beta, alpha]` — the cumulative re-application of the content
adjustments changes the order. -/
theorem score_and_rank_twice_changes_order :
    (score_and_rank_results [rankCandidateA, rankCandidateB]).map SearchResult.title =
      ["alpha", "beta"] ∧
    (score_and_rank_results
        (score_and_rank_results [rankCandidateA, rankCandidateB])).map SearchResult.title =
      ["beta", "alpha"] := by
  have h1 : score_and_rank_results [rankCandidateA, rankCandidateB] =
      [{ title := "alpha", snippet := "plain words", is_answered := false,
         metrics := some ⟨6, 5, 5, 5, 5, 53/10⟩ },
       { title := "beta", snippet := "has a ``` code fence", is_answered := false,
         metrics := some ⟨5, 5, 5, 5, 7, 26/5⟩ }] := by
    have hr : rankedBefore
        ({ title := "alpha", snippet := "plain words", is_answered := false,
           metrics := some ⟨6, 5, 5, 5, 5, 53/10⟩ } : SearchResult)
        ({ title := "beta", snippet := "has a ``` code fence", is_answered := false,
           metrics := some ⟨5, 5, 5, 5, 7, 26/5⟩ } : SearchResult) := by
      show compositeOf _ ≤ compositeOf _
      norm_num [compositeOf]
    simp only [score_and_rank_results, List.map, adjust_rankCandidateA_eq,
      adjust_rankCandidateB_eq, List.insertionSort, List.orderedInsert, if_pos hr]
  have h2 : score_and_rank_results
      [({ title := "alpha", snippet := "plain words", is_answered := false,
          metrics := some ⟨6, 5, 5, 5, 5, 53/10⟩ } : SearchResult),
       { title := "beta", snippet := "has a ``` code fence", is_answered := false,
         metrics := some ⟨5, 5, 5, 5, 7, 26/5⟩ }] =
      [{ title := "beta", snippet := "has a ``` code fence", is_answered := false,
         metrics := some ⟨5, 5, 5, 5, 9, 27/5⟩ },
       { title := "alpha", snippet := "plain words", is_answered := false,
         metrics := some ⟨6, 5, 5, 5, 5, 53/10⟩ }] := by
    have hr : ¬ rankedBefore
        ({ title := "alpha", snippet := "plain words", is_answered := false,
           metrics := some ⟨6, 5, 5, 5, 5, 53/10⟩ } : SearchResult)
        ({ title := "beta", snippet := "has a ``` code fence", is_answered := false,
           metrics := some ⟨5, 5, 5, 5, 9, 27/5⟩ } : SearchResult) := by
      show ¬ (compositeOf _ ≤ compositeOf _)
      norm_num [compositeOf]
    simp only [score_and_rank_results, List.map, adjust_rankCandidateA_twice_eq,
      adjust_rankCandidateB_twice_eq, List.insertionSort, List.orderedInsert, if_neg hr]
  rw [h1, h2]
  exact ⟨rfl, rfl⟩

/-- **C7 amended.**  What does hold of the ranking pass: it is a pure
deterministic function whose output is sorted (descending, ties broken by
the stable order) by the recomputed composite score, and is a permutation of
the adjusted candidates.  The idempotence half of the original claim fails
(see the counterexample): a second application re-applies the content-aware
adjustments and may reorder. -/
theorem score_and_rank_sorted_and_perm (results : List SearchResult) :
    List.Sorted rankedBefore (score_and_rank_results results) ∧
    (score_and_rank_results results).Perm
      ((results.map ensureMetrics).map adjustResult) := by
  haveI : IsTotal SearchResult rankedBefore := ⟨fun a b => le_total _ _⟩
  haveI : IsTrans SearchResult rankedBefore := ⟨fun _ _ _ h1 h2 => le_trans h2 h1⟩
  exact ⟨List.sorted_insertionSort rankedBefore _, List.perm_insertionSort rankedBefore _⟩

/-- **C10 counterexample.**  Passing the deny-list is not enough for
`execute` to be exception-free: a command starting with `/bin/` whose
executable `shutil.which` cannot find fails the second half of
`_validate_command`, which raises `ValueError` to the caller before any
subprocess exists.  Here `/bin/zangalewa-missing-tool` matches no deny-list
pattern, yet `execute` propagates the exception. -/
theorem execute_raises_for_missing_bin_utility :
    BLOCKED_COMMANDS.all
        (fun b => !(strContains (pyLower "/bin/zangalewa-missing-tool") b)) = true ∧
    (execute ⟨fun _ => false, .completed 0 "" ""⟩ "/bin/zangalewa-missing-tool" 60).1 =
      .error "Command not found: /bin/zangalewa-missing-tool" ∧
    (execute ⟨fun _ => false, .completed 0 "" ""⟩ "/bin/zangalewa-missing-tool" 60).2 =
      false := by
  exact ⟨by decide, rfl, rfl⟩

/-- **C10 amended.**  For every command on which `_validate_command` raises
nothing (deny-list *and* the `/bin/`-existence check pass), `execute` never
propagates an exception: it always returns an `ExecutionResult`; a timeout
yields `success=False`, `return_code=-1`, empty stdout and the
`"Command timed out after {timeout} seconds"` stderr; any other runtime
exception during execution yields `success=False`, `return_code=-1`, empty
stdout and the exception message in stderr; and a completed process yields
its exit code, stdout and stderr with `success ↔ returncode == 0`. -/
theorem execute_returns_result_after_validation
    (env : ExecEnv) (command : String) (timeout : ℚ)
    (h : validate_command env.which command = .ok ()) :
    (∃ r, (execute env command timeout).1 = .ok r) ∧
    (execute env command timeout).2 = true ∧
    (env.outcome = .timedOut →
      (execute env command timeout).1 =
        .ok { success := false, command := command, return_code := -1, stdout := "",
              stderr := "Command timed out after " ++ floatStr timeout ++ " seconds" }) ∧
    (∀ m, env.outcome = .raised m →
      (execute env command timeout).1 =
        .ok { success := false, command := command, return_code := -1, stdout := "",
              stderr := "Error executing command: " ++ m }) ∧
    (∀ rc out err, env.outcome = .completed rc out err →
      (execute env command timeout).1 =
        .ok { success := rc == 0, command := command, return_code := rc,
              stdout := out, stderr := err }) := by
  unfold execute
  rw [h]
  cases env.outcome with
  | completed rc out err =>
    refine ⟨⟨_, rfl⟩, rfl, ?_, ?_, ?_⟩
    · intro hh; cases hh
    · intro m hh; cases hh
    · intro rc' out' err' hh; cases hh; rfl
  | timedOut =>
    refine ⟨⟨_, rfl⟩, rfl, ?_, ?_, ?_⟩
    · intro _; rfl
    · intro m hh; cases hh
    · intro rc' out' err' hh; cases hh
  | raised m =>
    refine ⟨⟨_, rfl⟩, rfl, ?_, ?_, ?_⟩
    · intro hh; cases hh
    · intro m' hh; cases hh; rfl
    · intro rc' out' err' hh; cases hh

/-- Witness for the amended C10: `echo hello` passes full validation and a
timed-out run returns the timeout `ExecutionResult`. -/
theorem execute_returns_result_after_validation_witness :
    validate_command (fun _ => true) "echo hello" = .ok () ∧
    ((∃ r, (execute ⟨fun _ => true, .timedOut⟩ "echo hello" 2).1 = .ok r) ∧
      (execute ⟨fun _ => true, .timedOut⟩ "echo hello" 2).2 = true ∧
      (ProcOutcome.timedOut = .timedOut →
        (execute ⟨fun _ => true, .timedOut⟩ "echo hello" 2).1 =
          .ok { success := false, command := "echo hello", return_code := -1, stdout := "",
                stderr := "Command timed out after " ++ floatStr 2 ++ " seconds" }) ∧
      (∀ m, ProcOutcome.timedOut = .raised m →
        (execute ⟨fun _ => true, .timedOut⟩ "echo hello" 2).1 =
          .ok { success := false, command := "echo hello", return_code := -1, stdout := "",
                stderr := "Error executing command: " ++ m }) ∧
      (∀ rc out err, ProcOutcome.timedOut = .completed rc out err →
        (execute ⟨fun _ => true, .timedOut⟩ "echo hello" 2).1 =
          .ok { success := rc == 0, command := "echo hello", return_code := rc,
                stdout := out, stderr := err })) :=
  ⟨rfl, execute_returns_result_after_validation ⟨fun _ => true, .timedOut⟩ "echo hello" 2 rfl⟩

end Zangalewa
